import Mathlib

/-!
Shallow embedding of the babelpod audio daemon (index.js variant in
src/unnamed/part_003) and verification of its specification claims.

The JavaScript program is a single-threaded event loop: socket commands,
child-process exit/stderr events and timer callbacks mutate a set of
process-wide globals.  We embed it as an explicit state record (`Sys`)
plus executable handler functions translated statement-by-statement from
the source, and a time-indexed small-step interpreter
(`stepEv`/`runEvents`) that dispatches external events and timer fires
in global time order, exactly as Node's event loop would.
-/

set_option maxRecDepth 4000

/-- JS `String.prototype.includes(pat)`: `pat` occurs as a substring. -/
def strIncludes (s pat : String) : Bool :=
  (s.toList.tails).any (fun t => pat.toList.isPrefixOf t)

/-- Split a character list at every occurrence of `c` (the separator is
dropped; n separators yield n+1 pieces, as JS `split` does). -/
def splitChars (c : Char) (l : List Char) : List (List Char) :=
  l.foldr
    (fun ch acc => if ch = c then [] :: acc else (ch :: acc.headD []) :: acc.tail)
    [[]]

/-- JS `s.split(sep)` for the single-character separators the source
uses (":" and "-"). -/
def jsSplit (s : String) (c : Char) : List String :=
  (splitChars c s.toList).map String.mk

/-- JS `String.prototype.trim()`: strip whitespace from both ends. -/
def jsTrim (s : String) : String :=
  String.mk (((s.toList.dropWhile Char.isWhitespace).reverse.dropWhile Char.isWhitespace).reverse)

/-- JS `parseInt(x, 10)`: optional sign after trimming, maximal digit
prefix; `none` models `NaN` (no digits found). -/
def jsParseInt (s : String) : Option Int :=
  let t := (jsTrim s).toList
  let (sign, rest) :=
    match t with
    | '-' :: r => ((-1 : Int), r)
    | '+' :: r => ((1 : Int), r)
    | r => ((1 : Int), r)
  let digits := rest.takeWhile Char.isDigit
  if digits.isEmpty then none
  else some (sign * (Int.ofNat (digits.foldl (fun acc c => acc * 10 + (c.toNat - '0'.toNat)) 0)))

/-- Rendering of a `parseInt` result back to a string, as JS string
concatenation / `Array.prototype.join` would (`NaN` renders as "NaN"). -/
def jsNumToString (n : Option Int) : String :=
  match n with
  | none => "NaN"
  | some i => toString i

/-- One entry of the local PCM device catalog (`scanPcmDevices` result). -/
structure PcmDev where
  id : String
  name : String
  output : Bool
  input : Bool
deriving DecidableEq, Repr

/-- Per-line body of `scanPcmDevices`'s `lines.map` callback:
`parts = line.split(':')`; `devName = parts[2].trim()`;
`devId = "plughw:" + parts[0].split("-").map(x => parseInt(x,10)).join(",")`;
`output`/`input` from a `playback`/`capture` marker in any part.
Returns `none` when `parts[2]` does not exist (the JS code would throw). -/
def parsePcmLine (line : String) : Option PcmDev :=
  let parts := jsSplit line ':'
  match parts[2]? with
  | none => none
  | some p2 =>
    let devName := jsTrim p2
    let devId := "plughw:" ++ String.intercalate ","
      (jsSplit (parts.headD "") '-' |>.map (fun x => jsNumToString (jsParseInt x)))
    some { id := devId
           name := devName
           output := parts.any (fun t => strIncludes t "playback")
           input := parts.any (fun t => strIncludes t "capture") }

/-- A discovered AirPlay output descriptor (`availableAirplayOutputs`
entry): `stereo` is the `gpn` txt record when present. -/
structure AirDev where
  name : String
  host : String
  port : Nat
  stereo : Option String
deriving DecidableEq, Repr

/-- A member of a `UnifiedOutput`'s `devices` array: the JS code uses
duck-typed objects `{localId}` or `{host, port, isStereo}`. -/
inductive OutMember where
  | localMember (localId : String)
  | airMember (host : String) (port : Nat) (isStereo : Bool)
deriving DecidableEq, Repr

/-- A UI-facing unified output (`buildUnifiedOutputs` result element). -/
structure UnifiedOutput where
  uiId : String
  name : String
  isStereo : Bool
  devices : List OutMember
deriving DecidableEq, Repr

/-- Insertion-ordered de-duplication keyed by `name_host_port`, modelling
the JS `unique` object built with first-seen-wins and read back with
`Object.values` (keys here are never integer-like, so JS yields insertion
order). -/
def dedupAirplay (devs : List AirDev) : List AirDev :=
  (devs.foldl
    (fun (acc : List (String × AirDev)) d =>
      let key := d.name ++ "_" ++ d.host ++ "_" ++ toString d.port
      if (acc.map Prod.fst).contains key then acc else acc ++ [(key, d)])
    []).map Prod.snd

/-- Insertion-ordered grouping by `device.stereo || host:port`, modelling
the JS `grouped` object (keys are non-integer-like strings, so iteration
is insertion order; values are pushed in encounter order). -/
def groupAirplay (devs : List AirDev) : List (String × List AirDev) :=
  devs.foldl
    (fun (acc : List (String × List AirDev)) d =>
      let st :=
        match d.stereo with
        | some g => g
        | none => d.host ++ ":" ++ toString d.port
      match acc.lookup st with
      | some arr => acc.map (fun kv => if kv.fst = st then (kv.fst, arr ++ [d]) else kv)
      | none => acc ++ [(st, [d])])
    []

/-- `buildUnifiedOutputs()` from the source: local PCM outputs become
singleton entries; AirPlay descriptors are de-duplicated by
`(name, host, port)`, grouped by stereo key (defaulting to `host:port`),
singleton groups become non-stereo outputs and larger groups one stereo
output whose members keep discovery order. -/
def buildUnifiedOutputs (availablePcmOutputs : List PcmDev)
    (availableAirplayOutputs : List AirDev) : List UnifiedOutput :=
  let local_ := availablePcmOutputs.map (fun o =>
    { uiId := o.id
      name := o.name ++ " (Output)"
      isStereo := false
      devices := [OutMember.localMember o.id] })
  let cleaned := dedupAirplay availableAirplayOutputs
  let grouped := groupAirplay cleaned
  let air := grouped.map (fun kv =>
    match kv.snd with
    | [d] =>
      { uiId := "air:" ++ d.name
        name := (if d.name = "" then d.host else d.name) ++ " (AirPlay)"
        isStereo := false
        devices := [OutMember.airMember d.host d.port false] }
    | arr =>
      { uiId := "airpair:" ++ kv.fst
        name := kv.fst ++ " (AirPlay Stereo)"
        isStereo := true
        devices := arr.map (fun d => OutMember.airMember d.host d.port true) })
  local_ ++ air

/-- Signals a `ChildProcess.kill` call can send. -/
inductive Sig where
  | sigterm
  | sigkill
deriving DecidableEq, Repr

/-- The kinds of `setTimeout` callbacks the input path registers:
the 500ms deferred start after a manual switch, the busy-retry spawn,
the outer 2000ms body of `restartInputDevice`, its inner 500ms
cleanup-settle spawn, and the 100ms force-kill check registered by
`cleanupCurrentInput`. -/
inductive TimerKind where
  | deferredStart (dev : String)
  | busyRetry (dev : String)
  | restartOuter (dev : String)
  | restartInner (dev : String)
  | forceKillCheck
deriving DecidableEq, Repr

/-- A pending timer: id, absolute fire time (ms), callback kind. -/
structure Timer where
  tid : Nat
  fireAt : Nat
  kind : TimerKind
deriving DecidableEq, Repr

/-- A spawned arecord capture process.  `running` is OS-level liveness,
`killedFlag` is Node's `ChildProcess.killed` (set when a kill signal was
delivered), `busyBuffered` records whether the per-process
`stderrBuffer` closure has accumulated a "Device or resource busy" /
"audio open error" marker. -/
structure Proc where
  pid : Nat
  dev : String
  running : Bool
  killedFlag : Bool
  busyBuffered : Bool
deriving DecidableEq, Repr

/-- A tracked local aplay output (`activeLocalOutputs` entry). -/
structure LocalOut where
  id : String
  pid : Nat
deriving DecidableEq, Repr

/-- The `io.emit` / `io.to(..).emit` broadcasts the handlers produce. -/
inductive Emit where
  | switchedInput (dev : String)
  | statusInputSwitched (dev : String)
  | statusRetryConnected (dev : String)
  | statusBusyRetrying (attempt : Nat)
  | errTerminalBusy
  | errReconnecting
  | errTerminalRestart
  | statusReconnected (dev : String)
  | sessionOwnerUpdate (sid : String)
  | sessionLostControl (sid : String)
  | switchedOutput (outs : List String)
  | statusOutputsUpdated
  | changedVolume (v : ℚ)
  | errSinkApply (key : String)
deriving DecidableEq, Repr

/-- The process-wide mutable globals of the program, plus bookkeeping the
theorems read off: `pipedIn` is the set of capture-process pids whose
stdout is currently piped into the duplicator, `scheduledLog` records
every `setTimeout` registration with its delay, `kills` every
`ChildProcess.kill` call, and the `aplay*`/`air*`/`volApply` logs every
spawn / stop / add / set-volume attempt on output sinks.  `airFail` is
the set of `host:port` keys whose airtunes add/stop/setVolume calls
throw (caught by the surrounding try/catch in the source). -/
structure Sys where
  now : Nat := 0
  nextPid : Nat := 1
  nextTid : Nat := 1
  sessionOwner : Option String := none
  currentInput : String := "void"
  arecordInstance : Option Nat := none
  inputStreamRef : Option Nat := none
  isManualInputSwitch : Bool := false
  inputRestartAttempts : Nat := 0
  busyRetryAttempts : Nat := 0
  procs : List Proc := []
  pipedIn : List Nat := []
  timers : List Timer := []
  scheduledLog : List (TimerKind × Nat) := []
  kills : List (Nat × Sig) := []
  arecordSpawnLog : List (Nat × String) := []
  volume : ℚ := 50
  selectedOutputs : List String := []
  activeLocalOutputs : List LocalOut := []
  activeAirPlayDevices : List String := []
  unifiedOutputsSt : List UnifiedOutput := []
  airFail : List String := []
  aplaySpawnLog : List (String × Nat) := []
  aplayKillLog : List (String × Nat) := []
  airAddLog : List (String × Nat × ℚ × Bool) := []
  airStopLog : List String := []
  volApplyLog : List (String × ℚ) := []
  emits : List Emit := []
deriving DecidableEq, Repr

/-- Append one broadcast to the emit log (`io.emit`). -/
def emit (s : Sys) (e : Emit) : Sys := { s with emits := s.emits ++ [e] }

/-- Look up a spawned process record by pid. -/
def lookupProc (s : Sys) (pid : Nat) : Option Proc :=
  s.procs.find? (fun p => p.pid == pid)

/-- Apply an update to the process record with the given pid. -/
def updateProc (s : Sys) (pid : Nat) (f : Proc → Proc) : Sys :=
  { s with procs := s.procs.map (fun p => if p.pid == pid then f p else p) }

/-- `ChildProcess.kill(sig)`: the call is recorded; when the process is
still running the signal is delivered and Node sets `killed := true`
(delivery does not by itself run the exit handler - the exit arrives
later as its own event). -/
def killPid (s : Sys) (pid : Nat) (sig : Sig) : Sys :=
  let s2 := { s with kills := s.kills ++ [(pid, sig)] }
  match lookupProc s2 pid with
  | some p =>
    if p.running then updateProc s2 pid (fun q => { q with killedFlag := true }) else s2
  | none => s2

/-- `setTimeout(cb, delay)`: registers a timer due at `now + delay` and
records the registration in `scheduledLog`. -/
def scheduleTimer (s : Sys) (k : TimerKind) (delay : Nat) : Sys :=
  { s with
    timers := s.timers ++ [{ tid := s.nextTid, fireAt := s.now + delay, kind := k }]
    nextTid := s.nextTid + 1
    scheduledLog := s.scheduledLog ++ [(k, delay)] }

/-- The command line of a spawned capture process as `pgrep -f` sees it. -/
def arecordCmdline (dev : String) : String :=
  "arecord -D " ++ dev ++ " -c 2 -f S16_LE -r 44100"

/-- `killOrphanedArecord(devId)`: `pkill -9 -f "arecord.*devId"` - every
still-running capture process whose command line contains `devId` is
killed at OS level (these are normally untracked leftovers; the scan is
a no-op when nothing matches). -/
def killOrphanedArecord (s : Sys) (dev : String) : Sys :=
  if dev = "void" ∨ dev = "" then s
  else
    { s with procs := s.procs.map (fun p =>
        if p.running && strIncludes (arecordCmdline p.dev) dev then
          { p with running := false }
        else p) }

/-- `cleanupCurrentInput()`: unpipe the current input stream from the
duplicator, SIGTERM the tracked capture process, register the 100ms
force-kill check, and null out `arecordInstance`.  Note the source nulls
the global immediately, while the scheduled check reads that same global
when it later fires. -/
def cleanupCurrentInput (s : Sys) : Sys :=
  let s2 :=
    match s.inputStreamRef with
    | some pid => { s with pipedIn := s.pipedIn.filter (fun q => q != pid) }
    | none => s
  match s2.arecordInstance with
  | some pid =>
    let s3 := killPid s2 pid Sig.sigterm
    let s4 := scheduleTimer s3 TimerKind.forceKillCheck 100
    { s4 with arecordInstance := none }
  | none => s2

/-- `startArecordForDevice(devId, isRetry)`: kill orphans, spawn arecord
bound to `devId`, attach handlers, pipe its stdout into the duplicator,
then run the isRetry-dependent epilogue.  The retry branch resets
`busyRetryAttempts` and clears `isManualInputSwitch` right here, at
spawn time ("Reset on success" in the source). -/
def startArecordForDevice (s : Sys) (dev : String) (isRetry : Bool) : Sys :=
  if dev = "void" then s
  else
    let s1 := killOrphanedArecord s dev
    let pid := s1.nextPid
    let s2 := { s1 with
      procs := s1.procs ++
        [{ pid := pid, dev := dev, running := true, killedFlag := false, busyBuffered := false }]
      nextPid := pid + 1
      arecordInstance := some pid
      arecordSpawnLog := s1.arecordSpawnLog ++ [(pid, dev)]
      inputStreamRef := some pid
      pipedIn := s1.pipedIn ++ [pid] }
    if isRetry then
      let s3 := emit s2 (Emit.switchedInput s2.currentInput)
      let s4 := emit s3 (Emit.statusRetryConnected s3.currentInput)
      { s4 with busyRetryAttempts := 0, isManualInputSwitch := false }
    else
      let s3 := { s2 with busyRetryAttempts := 0 }
      let s4 := emit s3 (Emit.switchedInput s3.currentInput)
      emit s4 (Emit.statusInputSwitched s4.currentInput)

/-- `restartInputDevice(devId, delayMs)`: registers the outer restart
timer (its body - cleanup, settle delay, respawn - runs when it fires). -/
def restartInputDevice (s : Sys) (dev : String) (delayMs : Nat) : Sys :=
  if dev = "void" then s
  else scheduleTimer s (TimerKind.restartOuter dev) delayMs

/-- The `arecordInstance.on('exit', ...)` handler attached by
`setupArecordHandlers(devId, isRetry)`.  `devId` and the stderr buffer
are per-process closure captures; everything else is read from the
globals at exit time.  Branches, in source order: busy retry with
exponential backoff (manual switches only), terminal busy error,
unexpected-exit restart with cap, then the manual-flag reset. -/
def handleProcExit (s : Sys) (pid : Nat) (code : Option Int) (sig : Bool) : Sys :=
  match lookupProc s pid with
  | none => s
  | some p =>
    let s0 := updateProc s pid (fun q => { q with running := false })
    let dev := p.dev
    let isBusy := p.busyBuffered
    if isBusy ∧ s0.isManualInputSwitch ∧ s0.busyRetryAttempts < 5 then
      let k := s0.busyRetryAttempts + 1
      let s1 := { s0 with busyRetryAttempts := k }
      let retryDelay := 200 * 2 ^ (k - 1)
      let s2 := emit s1 (Emit.statusBusyRetrying k)
      scheduleTimer s2 (TimerKind.busyRetry dev) retryDelay
    else if isBusy ∧ 5 ≤ s0.busyRetryAttempts then
      let s1 := emit s0 Emit.errTerminalBusy
      { s1 with busyRetryAttempts := 0, isManualInputSwitch := false }
    else
      let s1 :=
        if ¬ s0.isManualInputSwitch ∧ s0.currentInput = dev ∧ (code ≠ some 0 ∨ sig) then
          let sE := emit s0 Emit.errReconnecting
          if sE.inputRestartAttempts < 3 then
            restartInputDevice sE dev 2000
          else
            let sT := emit sE Emit.errTerminalRestart
            { sT with inputRestartAttempts := 0 }
        else s0
      if s1.isManualInputSwitch then
        { s1 with isManualInputSwitch := false, busyRetryAttempts := 0 }
      else s1

/-- One iteration of a `ud.devices.forEach` stop loop in `syncOutputs`'s
removal pass: stop the streaming sink keyed `host:port` and drop it from
the active list; a throwing `airtunes.stop` is caught after the attempt,
leaving the key in the active list. -/
def stopAirStep (acc : Sys) (m : OutMember) : Sys :=
  match m with
  | OutMember.localMember _ => acc
  | OutMember.airMember host port _ =>
    let key := host ++ ":" ++ toString port
    if acc.airFail.contains key then
      emit { acc with airStopLog := acc.airStopLog ++ [key] } (Emit.errSinkApply key)
    else
      { acc with
        airStopLog := acc.airStopLog ++ [key]
        activeAirPlayDevices := acc.activeAirPlayDevices.filter (fun k => k != key) }

/-- One iteration of the backwards removal loop over
`activeLocalOutputs` for a matching id: unpipe and kill the aplay
process (the list entry itself is spliced out by the caller). -/
def killLocalStep (rid : String) (acc : Sys) (o : LocalOut) : Sys :=
  { acc with aplayKillLog := acc.aplayKillLog ++ [(rid, o.pid)] }

/-- The body of `removed.forEach(rid => ...)` in `syncOutputs`. -/
def removeOneOutput (s : Sys) (rid : String) : Sys :=
  if rid.startsWith "plughw:" then
    let s2 := (s.activeLocalOutputs.filter (fun o => o.id == rid)).foldl (killLocalStep rid) s
    { s2 with activeLocalOutputs := s2.activeLocalOutputs.filter (fun o => o.id != rid) }
  else if rid.startsWith "air:" ∨ rid.startsWith "airpair:" then
    match s.unifiedOutputsSt.find? (fun u => u.uiId == rid) with
    | some ud => ud.devices.foldl stopAirStep s
    | none => s
  else s

/-- One iteration of the `ud.devices.forEach` add loop in `syncOutputs`'s
addition pass: `airtunes.add(host, {port, volume, stereo})` with the
current volume, then track the key if not already tracked; a throwing
add is caught after the attempt and the key is not tracked. -/
def addAirStep (acc : Sys) (m : OutMember) : Sys :=
  match m with
  | OutMember.localMember _ => acc
  | OutMember.airMember host port stFlag =>
    let key := host ++ ":" ++ toString port
    if acc.airFail.contains key then
      emit { acc with airAddLog := acc.airAddLog ++ [(host, port, acc.volume, stFlag)] }
        (Emit.errSinkApply key)
    else
      let acc2 := { acc with airAddLog := acc.airAddLog ++ [(host, port, acc.volume, stFlag)] }
      if acc2.activeAirPlayDevices.contains key then acc2
      else { acc2 with activeAirPlayDevices := acc2.activeAirPlayDevices ++ [key] }

/-- The body of `added.forEach(aid => ...)` in `syncOutputs`: the "void"
sentinel is skipped, a `plughw:` id spawns an aplay sink and pipes the
duplicator into it, an AirPlay id is resolved against the unified
catalog (a vanished id is silently skipped) and each member added. -/
def addOneOutput (s : Sys) (aid : String) : Sys :=
  if aid = "void" then s
  else if aid.startsWith "plughw:" then
    { s with
      nextPid := s.nextPid + 1
      aplaySpawnLog := s.aplaySpawnLog ++ [(aid, s.nextPid)]
      activeLocalOutputs := s.activeLocalOutputs ++ [{ id := aid, pid := s.nextPid }] }
  else if aid.startsWith "air:" ∨ aid.startsWith "airpair:" then
    match s.unifiedOutputsSt.find? (fun u => u.uiId == aid) with
    | some ud => ud.devices.foldl addAirStep s
    | none => s
  else s

/-- One iteration of the `activeAirPlayDevices.forEach` volume loop:
`airtunes.setVolume(key, volume)` with a per-key try/catch. -/
def volStep (acc : Sys) (key : String) : Sys :=
  if acc.airFail.contains key then
    emit { acc with volApplyLog := acc.volApplyLog ++ [(key, acc.volume)] }
      (Emit.errSinkApply key)
  else
    { acc with volApplyLog := acc.volApplyLog ++ [(key, acc.volume)] }

/-- The trailing set-volume-on-all-active-AirPlay-devices loop, shared
verbatim between `syncOutputs` and the `change_output_volume` handler. -/
def applyVolumeAll (s : Sys) : Sys :=
  s.activeAirPlayDevices.foldl volStep s

/-- `syncOutputs(newSelected)`: record the new selection, diff it against
the old one, stop removed sinks, start added ones, then apply the
current volume to every active streaming sink. -/
def syncOutputs (s : Sys) (newSelected : List String) : Sys :=
  let old := s.selectedOutputs
  let s1 := { s with selectedOutputs := newSelected }
  let removed := old.filter (fun r => !(newSelected.contains r))
  let added := newSelected.filter (fun a => !(old.contains a))
  let s2 := removed.foldl removeOneOutput s1
  let s3 := added.foldl addOneOutput s2
  applyVolumeAll s3

/-- The optional bluetoothctl module: modeled as absent (`blue = null`
when `require('bluetoothctl')` fails), which sends every non-void input
through the generic deferred-start branch - no claim exercises the
Bluetooth connect path. -/
def blueAvailable : Bool := false

/-- The `socket.on('switch_input')` handler: owner-gated; set the manual
flag, reset both retry counters, tear down the current input, record the
new current input, then either switch to the idle void stream
immediately or defer the arecord start by the 500ms settle delay. -/
def onSwitchInput (s : Sys) (sid dev : String) : Sys :=
  if s.sessionOwner = some sid then
    let s1 := { s with
      isManualInputSwitch := true
      inputRestartAttempts := 0
      busyRetryAttempts := 0 }
    let s2 := cleanupCurrentInput s1
    let s3 := { s2 with currentInput := dev }
    if dev = "void" then
      let s4 := { s3 with inputStreamRef := none }
      let s5 := emit s4 (Emit.switchedInput dev)
      let s6 := emit s5 (Emit.statusInputSwitched dev)
      { s6 with isManualInputSwitch := false }
    else if strIncludes dev "bluealsa" ∧ blueAvailable then
      s3
    else
      scheduleTimer s3 (TimerKind.deferredStart dev) 500
  else s

/-- The `socket.on('switch_output')` handler: owner-gated sync then
notification broadcasts. -/
def onSwitchOutput (s : Sys) (sid : String) (outs : List String) : Sys :=
  if s.sessionOwner = some sid then
    let s1 := syncOutputs s outs
    let s2 := emit s1 (Emit.switchedOutput outs)
    emit s2 Emit.statusOutputsUpdated
  else s

/-- JS `Number(vol) || 0`: `none` models a `NaN` result of `Number`,
and both `NaN` and `0` are falsy, yielding `0`; any other numeric value
is stored unchanged - no clamping, no integer rounding. -/
def jsNumberOr0 (vol : Option ℚ) : ℚ :=
  match vol with
  | none => 0
  | some q => if q = 0 then 0 else q

/-- The `socket.on('change_output_volume')` handler: owner-gated;
coerce and store the volume, apply it to every active AirPlay sink
(per-sink try/catch), broadcast the new value. -/
def onChangeVolume (s : Sys) (sid : String) (vol : Option ℚ) : Sys :=
  if s.sessionOwner = some sid then
    let s1 := { s with volume := jsNumberOr0 vol }
    let s2 := applyVolumeAll s1
    emit s2 (Emit.changedVolume s2.volume)
  else s

/-- The `io.on('connection')` handler's ownership block: a new
connection takes over from a different existing owner (which is notified
it lost control) or claims a free session. -/
def onConnection (s : Sys) (sid : String) : Sys :=
  let s1 :=
    match s.sessionOwner with
    | some owner =>
      if owner ≠ sid then
        let sN := emit s (Emit.sessionLostControl owner)
        { sN with sessionOwner := some sid }
      else s
    | none => { s with sessionOwner := some sid }
  emit s1 (Emit.sessionOwnerUpdate sid)

/-- The callbacks the registered timers run when they fire.  None of
them re-checks `currentInput` against its captured device: the deferred
start, busy retry and inner restart all call `startArecordForDevice`
unconditionally; the force-kill check reads the `arecordInstance`
global (nulled by `cleanupCurrentInput` right after scheduling it) and
Node's `killed` flag. -/
def fireTimer (s : Sys) (k : TimerKind) : Sys :=
  match k with
  | TimerKind.deferredStart dev => startArecordForDevice s dev false
  | TimerKind.busyRetry dev => startArecordForDevice s dev true
  | TimerKind.restartOuter dev =>
    let s1 := cleanupCurrentInput s
    scheduleTimer s1 (TimerKind.restartInner dev) 500
  | TimerKind.restartInner dev =>
    let s1 := startArecordForDevice s dev false
    let s2 := { s1 with inputRestartAttempts := s1.inputRestartAttempts + 1 }
    emit s2 (Emit.statusReconnected dev)
  | TimerKind.forceKillCheck =>
    match s.arecordInstance with
    | some pid =>
      match lookupProc s pid with
      | some p => if p.killedFlag then s else killPid s pid Sig.sigkill
      | none => s
    | none => s

/-- The discrete events that drive the loop: socket commands, arecord
stderr busy output, process exits `(code, signal)`, and timer fires. -/
inductive Ev where
  | conn (sid : String)
  | switchInput (sid dev : String)
  | switchOutput (sid : String) (outs : List String)
  | changeVolume (sid : String) (vol : Option ℚ)
  | stderrBusy (pid : Nat)
  | procExit (pid : Nat) (code : Option Int) (sig : Bool)
  | fire (t : Nat)
deriving DecidableEq, Repr

/-- An external event at time `t` is admissible only when no pending
timer was due strictly earlier (Node would have run that callback
first). -/
def noEarlierTimer (s : Sys) (t : Nat) : Bool :=
  s.timers.all (fun tm => decide (t ≤ tm.fireAt))

/-- A pending timer may fire only when it is the earliest pending one
(ties broken by registration order, as in Node's timer queue). -/
def isDue (s : Sys) (tm : Timer) : Bool :=
  s.timers.all (fun tm2 =>
    decide (tm.fireAt < tm2.fireAt) ||
      (decide (tm.fireAt = tm2.fireAt) && decide (tm.tid ≤ tm2.tid)))

/-- One interpreter step: validate that the event is possible at time
`t` (time monotone; timers fire exactly at their due time, in due
order; stderr/exit events only for live processes), then run the
corresponding source handler.  `none` marks an inadmissible event. -/
def stepEv (s : Sys) (te : Nat × Ev) : Option Sys :=
  let t := te.fst
  if t < s.now then none
  else
    match te.snd with
    | Ev.fire tid =>
      match s.timers.find? (fun tm => tm.tid == tid) with
      | none => none
      | some tm =>
        if t = tm.fireAt ∧ isDue s tm then
          let s2 := { s with now := t, timers := s.timers.filter (fun tm2 => tm2.tid != tid) }
          some (fireTimer s2 tm.kind)
        else none
    | ev =>
      if noEarlierTimer s t then
        let s2 := { s with now := t }
        match ev with
        | Ev.conn sid => some (onConnection s2 sid)
        | Ev.switchInput sid dev => some (onSwitchInput s2 sid dev)
        | Ev.switchOutput sid outs => some (onSwitchOutput s2 sid outs)
        | Ev.changeVolume sid v => some (onChangeVolume s2 sid v)
        | Ev.stderrBusy pid =>
          match lookupProc s2 pid with
          | some p =>
            if p.running then
              some (updateProc s2 pid (fun q => { q with busyBuffered := true }))
            else none
          | none => none
        | Ev.procExit pid code sig =>
          match lookupProc s2 pid with
          | some p =>
            if p.running then some (handleProcExit s2 pid code sig) else none
          | none => none
        | Ev.fire _ => none
      else none

/-- Run a timed event trace from a state; inadmissible traces yield
`none`. -/
def runEvents (s : Sys) (evs : List (Nat × Ev)) : Option Sys :=
  evs.foldl (fun acc te => acc.bind (fun st => stepEv st te)) (some s)

/-- The program's state right after startup: void input, idle stream
piped into the duplicator, no owner, volume 50, nothing selected. -/
def initSys : Sys := {}

/-- Two manual switches 100ms apart, both within the 500ms settle delay:
switch to plughw:0,0 at t=10, switch to plughw:1,0 at t=110, then both
deferred start timers fire (t=510, t=610). -/
def traceC1 : List (Nat × Ev) :=
  [ (0, Ev.conn "o")
  , (10, Ev.switchInput "o" "plughw:0,0")
  , (110, Ev.switchInput "o" "plughw:1,0")
  , (510, Ev.fire 1)
  , (610, Ev.fire 2) ]

/-- Resulting state of `traceC1`. -/
def sysC1 : Sys := (runEvents initSys traceC1).getD initSys

/-- Manual switch to plughw:0,0; its spawn (t=510) reports busy on
stderr and exits, scheduling a 200ms busy retry (due t=760); a manual
switch to plughw:1,0 arrives at t=600 while that retry is pending; the
force-kill check (timer 3) fires at t=700, the pending busy retry
(timer 2) at t=760, and the switch's deferred start (timer 4) at
t=1100. -/
def traceC2 : List (Nat × Ev) :=
  [ (0, Ev.conn "o")
  , (10, Ev.switchInput "o" "plughw:0,0")
  , (510, Ev.fire 1)
  , (550, Ev.stderrBusy 1)
  , (560, Ev.procExit 1 (some 1) false)
  , (600, Ev.switchInput "o" "plughw:1,0")
  , (700, Ev.fire 3)
  , (760, Ev.fire 2)
  , (1100, Ev.fire 4) ]

/-- Resulting state of `traceC2`. -/
def sysC2 : Sys := (runEvents initSys traceC2).getD initSys

/-- One manual switch to a persistently busy device: first spawn
(t=510) reports busy and exits (t=530), the 200ms busy retry fires
(t=730) and its spawn also reports busy and exits (t=750). -/
def traceC3 : List (Nat × Ev) :=
  [ (0, Ev.conn "o")
  , (10, Ev.switchInput "o" "plughw:0,0")
  , (510, Ev.fire 1)
  , (520, Ev.stderrBusy 1)
  , (530, Ev.procExit 1 (some 1) false)
  , (730, Ev.fire 2)
  , (740, Ev.stderrBusy 2)
  , (750, Ev.procExit 2 (some 1) false) ]

/-- Resulting state of `traceC3`. -/
def sysC3 : Sys := (runEvents initSys traceC3).getD initSys

/-- A manual switch from plughw:0,0 to plughw:1,0 (the SIGTERM'd old
process pid 1 exits at t=620, clearing the manual flag), followed by
four consecutive unexpected non-zero exits of the current device's
capture processes (pids 2,3,4,5) with every scheduled timer fired in
due order and no manual switch in between. -/
def traceC4 : List (Nat × Ev) :=
  [ (0, Ev.conn "o")
  , (10, Ev.switchInput "o" "plughw:0,0")
  , (510, Ev.fire 1)
  , (600, Ev.switchInput "o" "plughw:1,0")
  , (620, Ev.procExit 1 none true)
  , (700, Ev.fire 2)
  , (1100, Ev.fire 3)
  , (1200, Ev.procExit 2 (some 1) false)
  , (3200, Ev.fire 4)
  , (3300, Ev.fire 5)
  , (3700, Ev.fire 6)
  , (3800, Ev.procExit 3 (some 1) false)
  , (5800, Ev.fire 7)
  , (5900, Ev.fire 8)
  , (6300, Ev.fire 9)
  , (6400, Ev.procExit 4 (some 1) false)
  , (8400, Ev.fire 10)
  , (8500, Ev.fire 11)
  , (8900, Ev.fire 12)
  , (9000, Ev.procExit 5 (some 1) false) ]

/-- Resulting state of `traceC4`. -/
def sysC4 : Sys := (runEvents initSys traceC4).getD initSys

/-- A capture process that ignores SIGTERM: manual switch to plughw:0,0
(spawn at t=510), then a manual switch to void at t=1000 performs the
graceful teardown; the process does not exit, and the 100ms force-kill
check fires at t=1100. -/
def traceC5 : List (Nat × Ev) :=
  [ (0, Ev.conn "o")
  , (10, Ev.switchInput "o" "plughw:0,0")
  , (510, Ev.fire 1)
  , (1000, Ev.switchInput "o" "void")
  , (1100, Ev.fire 2) ]

/-- Resulting state of `traceC5`. -/
def sysC5 : Sys := (runEvents initSys traceC5).getD initSys

/-- C1: the at-most-one-capture invariant fails on the code.  Evaluating
the embedded program on `traceC1` - two owner `switch_input` commands
100ms apart - is admissible and ends with BOTH spawned arecord processes
(pid 1 for plughw:0,0 and pid 2 for plughw:1,0) running and
simultaneously piped into the duplicator: the deferred start timer of
the first switch runs after the second switch's cleanup and spawns a
capture process that nothing ever tears down. -/
theorem c1_two_captures_piped :
    (runEvents initSys traceC1).isSome = true ∧
    sysC1.pipedIn = [1, 2] ∧
    lookupProc sysC1 1 =
      some { pid := 1, dev := "plughw:0,0", running := true
             killedFlag := false, busyBuffered := false } ∧
    lookupProc sysC1 2 =
      some { pid := 2, dev := "plughw:1,0", running := true
             killedFlag := false, busyBuffered := false } := by
  decide

/-- C2: the stale-timer guard does not exist in the code.  Evaluating
the embedded program on `traceC2` - a busy-retry timer pending for
plughw:0,0 when a manual `switch_input(plughw:1,0)` arrives - shows the
pending retry still firing and spawning capture process pid 2 for the
old device plughw:0,0 (left running and piped into the duplicator
alongside the new device's pid 3) even though `currentInput` is
plughw:1,0: the retry callback calls `startArecordForDevice(devId)`
without comparing `devId` to `currentInput`. -/
theorem c2_stale_retry_spawns_for_old_device :
    (runEvents initSys traceC2).isSome = true ∧
    sysC2.currentInput = "plughw:1,0" ∧
    sysC2.arecordSpawnLog = [(1, "plughw:0,0"), (2, "plughw:0,0"), (3, "plughw:1,0")] ∧
    lookupProc sysC2 2 =
      some { pid := 2, dev := "plughw:0,0", running := true
             killedFlag := false, busyBuffered := false } ∧
    sysC2.pipedIn = [2, 3] := by
  decide

/-- C3: the 200/400/800/1600/3200ms busy backoff schedule is not what
the code does.  Evaluating the embedded program on `traceC3` - one
manual switch to a device that stays busy - shows only the FIRST busy
exit scheduling a busy retry (200ms); the retry spawn itself resets
`busyRetryAttempts` to 0 and clears `isManualInputSwitch`, so the second
busy exit is routed to the crash-restart branch (a 2000ms
`restartInputDevice` timer), no 400ms retry is ever scheduled and the
terminal busy error is never reported. -/
theorem c3_backoff_schedule_not_followed :
    (runEvents initSys traceC3).isSome = true ∧
    sysC3.scheduledLog =
      [(TimerKind.deferredStart "plughw:0,0", 500),
       (TimerKind.busyRetry "plughw:0,0", 200),
       (TimerKind.restartOuter "plughw:0,0", 2000)] ∧
    sysC3.busyRetryAttempts = 0 ∧
    sysC3.isManualInputSwitch = false ∧
    sysC3.emits.contains Emit.errTerminalBusy = false := by
  decide

/-- C4: the crash-restart cap holds.  Evaluating the embedded program on
`traceC4` - four consecutive unexpected exits (pids 2,3,4,5) of the
current device plughw:1,0 with no manual switch in between - schedules
exactly three `restartInputDevice` timers, each with the fixed 2000ms
delay (spawning the three restart processes pids 3,4,5), while the
fourth exit schedules nothing, reports the terminal
please-reselect-the-input error, resets the restart counter, and leaves
no timer pending. -/
theorem c4_crash_restart_cap :
    (runEvents initSys traceC4).isSome = true ∧
    (sysC4.scheduledLog.filter (fun e =>
        match e.fst with
        | TimerKind.restartOuter _ => true
        | _ => false)) =
      [(TimerKind.restartOuter "plughw:1,0", 2000),
       (TimerKind.restartOuter "plughw:1,0", 2000),
       (TimerKind.restartOuter "plughw:1,0", 2000)] ∧
    sysC4.emits.contains Emit.errTerminalRestart = true ∧
    sysC4.timers = [] ∧
    sysC4.inputRestartAttempts = 0 ∧
    sysC4.arecordSpawnLog =
      [(1, "plughw:0,0"), (2, "plughw:1,0"), (3, "plughw:1,0"),
       (4, "plughw:1,0"), (5, "plughw:1,0")] := by
  decide

/-- C5: graceful-then-forced termination fails on the code.  Evaluating
the embedded program on `traceC5` - a capture process that has not
exited 100ms after the graceful SIGTERM - shows the kill log containing
only the SIGTERM: the 100ms check reads the `arecordInstance` global,
which `cleanupCurrentInput` nulled immediately after scheduling it (and
whose `killed` flag the SIGTERM send had already set), so no SIGKILL is
ever issued to the still-running process and no further timer is
pending that could issue one. -/
theorem c5_no_forced_kill_after_graceful :
    (runEvents initSys traceC5).isSome = true ∧
    sysC5.kills = [(1, Sig.sigterm)] ∧
    lookupProc sysC5 1 =
      some { pid := 1, dev := "plughw:0,0", running := true
             killedFlag := true, busyBuffered := false } ∧
    sysC5.timers = [] := by
  decide

/-- A fold whose step preserves a projection preserves it overall. -/
theorem foldl_preserves {β γ : Type} (f : Sys → β → Sys) (g : Sys → γ)
    (h : ∀ a b, g (f a b) = g a) : ∀ (l : List β) (s : Sys), g (l.foldl f s) = g s := by
  intro l
  induction l with
  | nil => intro s; rfl
  | cons b l ih => intro s; rw [List.foldl_cons, ih, h]

theorem volStep_volume (a : Sys) (k : String) : (volStep a k).volume = a.volume := by
  unfold volStep emit; split <;> rfl

theorem volStep_applyLog (a : Sys) (k : String) :
    (volStep a k).volApplyLog = a.volApplyLog ++ [(k, a.volume)] := by
  unfold volStep emit; split <;> rfl

theorem volStep_selected (a : Sys) (k : String) :
    (volStep a k).selectedOutputs = a.selectedOutputs := by
  unfold volStep emit; split <;> rfl

theorem volStep_localOuts (a : Sys) (k : String) :
    (volStep a k).activeLocalOutputs = a.activeLocalOutputs := by
  unfold volStep emit; split <;> rfl

theorem volStep_aplaySpawns (a : Sys) (k : String) :
    (volStep a k).aplaySpawnLog = a.aplaySpawnLog := by
  unfold volStep emit; split <;> rfl

theorem volStep_aplayKills (a : Sys) (k : String) :
    (volStep a k).aplayKillLog = a.aplayKillLog := by
  unfold volStep emit; split <;> rfl

theorem volStep_airAdds (a : Sys) (k : String) :
    (volStep a k).airAddLog = a.airAddLog := by
  unfold volStep emit; split <;> rfl

theorem volStep_airStops (a : Sys) (k : String) :
    (volStep a k).airStopLog = a.airStopLog := by
  unfold volStep emit; split <;> rfl

/-- The volume loop attempts a set-volume on every key it is given, in
order, all with the same (unchanged) volume value. -/
theorem volFold_applyLog (l : List String) (s : Sys) :
    (l.foldl volStep s).volApplyLog = s.volApplyLog ++ l.map (fun k => (k, s.volume)) := by
  induction l generalizing s with
  | nil => simp
  | cons k l ih =>
    rw [List.foldl_cons, ih]
    simp only [volStep_applyLog, volStep_volume, List.map_cons, List.append_assoc,
      List.singleton_append]

theorem stopAirStep_selected (a : Sys) (m : OutMember) :
    (stopAirStep a m).selectedOutputs = a.selectedOutputs := by
  cases m with
  | localMember i => rfl
  | airMember h p st =>
    unfold stopAirStep emit
    dsimp only
    split <;> rfl

theorem addAirStep_selected (a : Sys) (m : OutMember) :
    (addAirStep a m).selectedOutputs = a.selectedOutputs := by
  cases m with
  | localMember i => rfl
  | airMember h p st =>
    unfold addAirStep emit
    dsimp only
    split
    · rfl
    · split <;> rfl

theorem removeOne_selected (s : Sys) (rid : String) :
    (removeOneOutput s rid).selectedOutputs = s.selectedOutputs := by
  unfold removeOneOutput
  split
  · exact foldl_preserves (killLocalStep rid) Sys.selectedOutputs (fun a b => rfl) _ s
  · split
    · split
      · exact foldl_preserves stopAirStep Sys.selectedOutputs stopAirStep_selected _ s
      · rfl
    · rfl

theorem addOne_selected (s : Sys) (aid : String) :
    (addOneOutput s aid).selectedOutputs = s.selectedOutputs := by
  unfold addOneOutput
  split
  · rfl
  · split
    · rfl
    · split
      · split
        · exact foldl_preserves addAirStep Sys.selectedOutputs addAirStep_selected _ s
        · rfl
      · rfl

/-- Diffing a list against itself with the source's
`filter(x => !list.includes(x))` yields the empty list. -/
theorem filter_not_contains_self (S : List String) :
    S.filter (fun r => !(S.contains r)) = [] := by
  rw [List.filter_eq_nil_iff]
  intro a ha
  simpa using ha

/-- `syncOutputs` records the new selection verbatim, whatever happens
to the individual sinks. -/
theorem sync_selected (s : Sys) (S : List String) :
    (syncOutputs s S).selectedOutputs = S := by
  unfold syncOutputs applyVolumeAll
  dsimp only
  rw [foldl_preserves volStep Sys.selectedOutputs volStep_selected,
    foldl_preserves addOneOutput Sys.selectedOutputs addOne_selected,
    foldl_preserves removeOneOutput Sys.selectedOutputs removeOne_selected]

/-- When the stored selection already equals the requested one, a
`syncOutputs` call computes empty removed/added diffs and attempts no
sink start or stop (only the trailing volume re-apply runs). -/
theorem sync_noop_of_selected (s : Sys) (S : List String) (h : s.selectedOutputs = S) :
    (syncOutputs s S).aplaySpawnLog = s.aplaySpawnLog ∧
    (syncOutputs s S).aplayKillLog = s.aplayKillLog ∧
    (syncOutputs s S).airAddLog = s.airAddLog ∧
    (syncOutputs s S).airStopLog = s.airStopLog := by
  unfold syncOutputs
  rw [h]
  dsimp only
  rw [filter_not_contains_self]
  simp only [List.foldl_nil]
  unfold applyVolumeAll
  refine ⟨?_, ?_, ?_, ?_⟩
  · exact foldl_preserves volStep Sys.aplaySpawnLog volStep_aplaySpawns _ _
  · exact foldl_preserves volStep Sys.aplayKillLog volStep_aplayKills _ _
  · exact foldl_preserves volStep Sys.airAddLog volStep_airAdds _ _
  · exact foldl_preserves volStep Sys.airStopLog volStep_airStops _ _

/-- C6: owner mutual exclusion.  A `switch_input`, `switch_output` or
`change_output_volume` command issued by a connection id different from
the current session owner returns the state completely unchanged - no
error emit, no field mutation, and (since `Sys` includes every spawn
and kill log) zero spawned or killed processes. -/
theorem c6_nonowner_commands_are_noops (s : Sys) (sid dev : String)
    (outs : List String) (vol : Option ℚ)
    (h : s.sessionOwner ≠ some sid) :
    onSwitchInput s sid dev = s ∧
    onSwitchOutput s sid outs = s ∧
    onChangeVolume s sid vol = s := by
  refine ⟨?_, ?_, ?_⟩ <;> simp [onSwitchInput, onSwitchOutput, onChangeVolume, h]

/-- Witness for `c6_nonowner_commands_are_noops` at a concrete state
owned by "alice" and commands from "bob". -/
theorem c6_nonowner_commands_are_noops_witness :
    ({ initSys with sessionOwner := some "alice" } : Sys).sessionOwner ≠ some "bob" ∧
    (onSwitchInput { initSys with sessionOwner := some "alice" } "bob" "plughw:0,0"
        = { initSys with sessionOwner := some "alice" } ∧
     onSwitchOutput { initSys with sessionOwner := some "alice" } "bob" ["air:C"]
        = { initSys with sessionOwner := some "alice" } ∧
     onChangeVolume { initSys with sessionOwner := some "alice" } "bob" (some 30)
        = { initSys with sessionOwner := some "alice" }) :=
  ⟨by decide,
   c6_nonowner_commands_are_noops { initSys with sessionOwner := some "alice" }
     "bob" "plughw:0,0" ["air:C"] (some 30) (by decide)⟩

/-- C7: grouping and de-duplication of `buildUnifiedOutputs`.  For the
streaming descriptors A(h1,1,gpn "Pair"), B(h2,2,gpn "Pair") and
C(h3,3,no gpn), the result is exactly one stereo unified output with
the two members A,B (in discovery order) plus one non-stereo unified
output for C; reporting A a second time (a duplicate `(name, host,
port)` discovery) leaves the result unchanged. -/
theorem c7_grouping_scenario :
    buildUnifiedOutputs []
      [{ name := "A", host := "h1", port := 1, stereo := some "Pair" },
       { name := "B", host := "h2", port := 2, stereo := some "Pair" },
       { name := "C", host := "h3", port := 3, stereo := none }] =
      [{ uiId := "airpair:Pair", name := "Pair (AirPlay Stereo)", isStereo := true
         devices := [OutMember.airMember "h1" 1 true, OutMember.airMember "h2" 2 true] },
       { uiId := "air:C", name := "C (AirPlay)", isStereo := false
         devices := [OutMember.airMember "h3" 3 false] }] ∧
    buildUnifiedOutputs []
      [{ name := "A", host := "h1", port := 1, stereo := some "Pair" },
       { name := "B", host := "h2", port := 2, stereo := some "Pair" },
       { name := "C", host := "h3", port := 3, stereo := none },
       { name := "A", host := "h1", port := 1, stereo := some "Pair" }] =
    buildUnifiedOutputs []
      [{ name := "A", host := "h1", port := 1, stereo := some "Pair" },
       { name := "B", host := "h2", port := 2, stereo := some "Pair" },
       { name := "C", host := "h3", port := 3, stereo := none }] := by
  decide

/-- A concrete owned state with one active streaming sink, used to
exercise the volume handler. -/
def sysC8 : Sys :=
  { initSys with sessionOwner := some "o", activeAirPlayDevices := ["h1:7000"] }

/-- C8 counterexample: the claim that the stored volume is
clamped/coerced to an integer in 0-100 is false.  The owner submits
150: the handler stores 150 unchanged - outside 0-100 - and applies
150 to the active sink. -/
theorem c8_counterexample_no_clamping :
    (onChangeVolume sysC8 "o" (some 150)).volume = 150 ∧
    ¬ (onChangeVolume sysC8 "o" (some 150)).volume ≤ 100 ∧
    (onChangeVolume sysC8 "o" (some 150)).volApplyLog = [("h1:7000", 150)] := by
  decide

/-- C8 (amended): for every value the session owner submits, the stored
process-wide volume is exactly `Number(value) || 0` (NaN and 0 coerce
to 0; no clamping to 0-100 and no integer rounding), a set-volume is
attempted on every currently active streaming sink (even those whose
apply throws - per-sink errors are caught and skipped), and local
sinks, their logs and the selection are untouched. -/
theorem c8_volume_coercion_amended (s : Sys) (sid : String) (vol : Option ℚ)
    (h : s.sessionOwner = some sid) :
    (onChangeVolume s sid vol).volume = jsNumberOr0 vol ∧
    (onChangeVolume s sid vol).volApplyLog
      = s.volApplyLog ++ s.activeAirPlayDevices.map (fun k => (k, jsNumberOr0 vol)) ∧
    (onChangeVolume s sid vol).activeLocalOutputs = s.activeLocalOutputs ∧
    (onChangeVolume s sid vol).aplayKillLog = s.aplayKillLog ∧
    (onChangeVolume s sid vol).aplaySpawnLog = s.aplaySpawnLog ∧
    (onChangeVolume s sid vol).selectedOutputs = s.selectedOutputs := by
  unfold onChangeVolume applyVolumeAll emit
  rw [if_pos h]
  dsimp only
  refine ⟨?_, ?_, ?_, ?_, ?_, ?_⟩
  · rw [foldl_preserves volStep Sys.volume volStep_volume]
  · rw [volFold_applyLog]
  · rw [foldl_preserves volStep Sys.activeLocalOutputs volStep_localOuts]
  · rw [foldl_preserves volStep Sys.aplayKillLog volStep_aplayKills]
  · rw [foldl_preserves volStep Sys.aplaySpawnLog volStep_aplaySpawns]
  · rw [foldl_preserves volStep Sys.selectedOutputs volStep_selected]

/-- Witness for `c8_volume_coercion_amended` at the concrete owned
state and the concrete submitted value 150. -/
theorem c8_volume_coercion_amended_witness :
    sysC8.sessionOwner = some "o" ∧
    ((onChangeVolume sysC8 "o" (some 150)).volume = jsNumberOr0 (some 150) ∧
     (onChangeVolume sysC8 "o" (some 150)).volApplyLog
       = sysC8.volApplyLog ++ sysC8.activeAirPlayDevices.map (fun k => (k, jsNumberOr0 (some 150))) ∧
     (onChangeVolume sysC8 "o" (some 150)).activeLocalOutputs = sysC8.activeLocalOutputs ∧
     (onChangeVolume sysC8 "o" (some 150)).aplayKillLog = sysC8.aplayKillLog ∧
     (onChangeVolume sysC8 "o" (some 150)).aplaySpawnLog = sysC8.aplaySpawnLog ∧
     (onChangeVolume sysC8 "o" (some 150)).selectedOutputs = sysC8.selectedOutputs) :=
  ⟨rfl, c8_volume_coercion_amended sysC8 "o" (some 150) rfl⟩

/-- C9 counterexample: the capability line "0-0: ... : ... :playback"
does NOT parse to id "plughw:1,0" - the id is built from the leading
card-device field "0-0", so it parses to "plughw:0,0" (with output
true, input false as claimed). -/
theorem c9_counterexample_line_for_card_zero :
    parsePcmLine "0-0: ... : ... :playback" =
      some { id := "plughw:0,0", name := "...", output := true, input := false } ∧
    "plughw:0,0" ≠ "plughw:1,0" := by
  decide

/-- C9 (amended): the /proc/asound/pcm line describing local device
plughw:1,0 begins with "1-0"; the line "1-0: ... : ... :playback"
parses to a descriptor with id "plughw:1,0", output true and input
false. -/
theorem c9_pcm_line_parse_amended :
    parsePcmLine "1-0: ... : ... :playback" =
      some { id := "plughw:1,0", name := "...", output := true, input := false } := by
  decide

/-- C10: `syncOutputs` records the requested list verbatim as the new
selection - ids matching no catalog entry, the "void" sentinel, and ids
whose sink attempts fail (any `airFail` set) all included - so an
immediately repeated `syncOutputs` with the same list computes empty
added and removed diffs and attempts no further sink spawn, kill, add
or stop (the spawn/kill/add/stop logs do not grow). -/
theorem c10_sync_records_selection_and_is_idempotent (s : Sys) (S : List String) :
    (syncOutputs s S).selectedOutputs = S ∧
    (syncOutputs (syncOutputs s S) S).selectedOutputs = S ∧
    (syncOutputs (syncOutputs s S) S).aplaySpawnLog = (syncOutputs s S).aplaySpawnLog ∧
    (syncOutputs (syncOutputs s S) S).aplayKillLog = (syncOutputs s S).aplayKillLog ∧
    (syncOutputs (syncOutputs s S) S).airAddLog = (syncOutputs s S).airAddLog ∧
    (syncOutputs (syncOutputs s S) S).airStopLog = (syncOutputs s S).airStopLog := by
  obtain ⟨h1, h2, h3, h4⟩ := sync_noop_of_selected (syncOutputs s S) S (sync_selected s S)
  exact ⟨sync_selected s S, sync_selected (syncOutputs s S) S, h1, h2, h3, h4⟩
